import Mathlib

/-!
Verification development for a browser yoga-assistant's core logic:
a rule-based pose classifier over 33 body landmarks (src/unnamed/part_001,
the richer multi-criterion variant) and a stateful speech-announcement
controller (src/src/hooks/useSpeechFeedback.ts).

Numbers: landmark coordinates and visibilities are modelled as real
numbers (the source computes with floating-point reals and `Math.atan2`,
`Math.sqrt`); controller timestamps are integers (milliseconds, as
returned by `Date.now()`), and the stability share `matchCount / length`
is modelled as an exact rational comparison.
-/

/-- One detected body keypoint: `{x, y, z, visibility}`. The classifier
only reads `x`, `y` and `visibility`; `visibility` may be absent
(`visibility !== undefined` is checked in the source). -/
structure Landmark where
  x : ℝ
  y : ℝ
  z : ℝ
  visibility : Option ℝ

/-- `PoseResult` as consumed by `classifyPose`: the landmark list may be
absent (the source guards `!landmarks`). -/
structure PoseResult where
  landmarks : Option (List Landmark)
  worldLandmarks : List Landmark
  confidence : ℝ

/-- The classifier's output record `{pose, confidence, feedback}`. -/
structure PoseClassification where
  pose : String
  confidence : ℝ
  feedback : String

namespace YOGA_POSES

def MOUNTAIN : String := "Mountain Pose (Tadasana)"

def WARRIOR_I : String := "Warrior I (Virabhadrasana I)"

def WARRIOR_II : String := "Warrior II (Virabhadrasana II)"

def TREE : String := "Tree Pose (Vrksasana)"

def DOWNWARD_DOG : String := "Downward Dog (Adho Mukha Svanasana)"

def PLANK : String := "Plank Pose (Phalakasana)"

def CHILD : String := "Child's Pose (Balasana)"

def COBRA : String := "Cobra Pose (Bhujangasana)"

end YOGA_POSES

section Classifier

open Classical

/-- JavaScript's `Math.atan2(y, x)`: the angle of the vector `(x, y)` in
`(-π, π]`, with `atan2 0 0 = 0`. -/
noncomputable def atan2 (y x : ℝ) : ℝ :=
  if 0 < x then Real.arctan (y / x)
  else if x < 0 then
    (if 0 ≤ y then Real.arctan (y / x) + Real.pi else Real.arctan (y / x) - Real.pi)
  else if 0 < y then Real.pi / 2
  else if y < 0 then -(Real.pi / 2)
  else 0

/-- `calculateAngle(a, b, c)`: interior angle at `b` in degrees, folded
into `[0, 180]` (`angle = 360 - angle` when above 180). -/
noncomputable def calculateAngle (a b c : Landmark) : ℝ :=
  let radians := atan2 (c.y - b.y) (c.x - b.x) - atan2 (a.y - b.y) (a.x - b.x)
  let angle := |radians * 180 / Real.pi|
  if 180 < angle then 360 - angle else angle

/-- `calculateDistance(a, b)`: Euclidean distance in the 2D plane. -/
noncomputable def calculateDistance (a b : Landmark) : ℝ :=
  Real.sqrt ((b.x - a.x) ^ 2 + (b.y - a.y) ^ 2)

/-- `calculateAlignment(point1, point2, point3)`: one minus the deviation
between the directions of the two segments, normalized by π and capped
at 1. -/
noncomputable def calculateAlignment (point1 point2 point3 : Landmark) : ℝ :=
  let angle1 := atan2 (point2.y - point1.y) (point2.x - point1.x)
  let angle2 := atan2 (point3.y - point2.y) (point3.x - point2.x)
  let angleDiff := |angle1 - angle2|
  1 - min (angleDiff / Real.pi) 1

/-- `isBodyVertical(shoulder, hip, ankle)`: the shoulder-to-hip line is
within 10 degrees of vertical (the `ankle` argument is unused, as in the
source). -/
def isBodyVertical (shoulder hip ankle : Landmark) : Prop :=
  let bodyAngle := |atan2 (hip.y - shoulder.y) (hip.x - shoulder.x) * 180 / Real.pi|
  80 < bodyAngle ∧ bodyAngle < 100

/-- `calculatePoseConfidence(criteriaMet, weights)`: weighted fraction of
the criteria met. Every call in the rich classifier passes explicit
weights, so the default all-ones case is not modelled. -/
noncomputable def calculatePoseConfidence (criteriaMet : List Prop) (weights : List ℝ) : ℝ :=
  let totalWeight := weights.sum
  let metWeight := ((criteriaMet.zip weights).map (fun cw => if cw.1 then cw.2 else 0)).sum
  metWeight / totalWeight

/-- `criteria.filter(c => c).length`: how many criteria hold. -/
noncomputable def metCount (criteria : List Prop) : ℕ :=
  criteria.countP (fun c => decide c)

def defaultLandmark : Landmark := ⟨0, 0, 0, none⟩

/-- The geometric quantities `classifyPose` derives from the skeleton
before evaluating the per-pose rules, together with the raw landmarks
the rules read directly. -/
structure Features where
  nose : Landmark
  leftShoulder : Landmark
  rightShoulder : Landmark
  leftWrist : Landmark
  rightWrist : Landmark
  leftHip : Landmark
  rightHip : Landmark
  leftKnee : Landmark
  rightKnee : Landmark
  leftAnkle : Landmark
  rightAnkle : Landmark
  leftArmAngle : ℝ
  rightArmAngle : ℝ
  leftLegAngle : ℝ
  rightLegAngle : ℝ
  leftShoulderAngle : ℝ
  rightShoulderAngle : ℝ
  leftHipAngle : ℝ
  rightHipAngle : ℝ
  shoulderAlignment : ℝ
  hipWidth : ℝ
  shoulderWidth : ℝ
  bodyAlignment : ℝ
  torsoAngle : ℝ

/-- The landmark extraction (MediaPipe indices) and angle/alignment
computations of `classifyPose`, lines 174-245 of the source. -/
noncomputable def computeFeatures (landmarks : List Landmark) : Features :=
  let nose := landmarks.getD 0 defaultLandmark
  let leftShoulder := landmarks.getD 11 defaultLandmark
  let rightShoulder := landmarks.getD 12 defaultLandmark
  let leftElbow := landmarks.getD 13 defaultLandmark
  let rightElbow := landmarks.getD 14 defaultLandmark
  let leftWrist := landmarks.getD 15 defaultLandmark
  let rightWrist := landmarks.getD 16 defaultLandmark
  let leftHip := landmarks.getD 23 defaultLandmark
  let rightHip := landmarks.getD 24 defaultLandmark
  let leftKnee := landmarks.getD 25 defaultLandmark
  let rightKnee := landmarks.getD 26 defaultLandmark
  let leftAnkle := landmarks.getD 27 defaultLandmark
  let rightAnkle := landmarks.getD 28 defaultLandmark
  { nose := nose
    leftShoulder := leftShoulder
    rightShoulder := rightShoulder
    leftWrist := leftWrist
    rightWrist := rightWrist
    leftHip := leftHip
    rightHip := rightHip
    leftKnee := leftKnee
    rightKnee := rightKnee
    leftAnkle := leftAnkle
    rightAnkle := rightAnkle
    leftArmAngle := calculateAngle leftShoulder leftElbow leftWrist
    rightArmAngle := calculateAngle rightShoulder rightElbow rightWrist
    leftLegAngle := calculateAngle leftHip leftKnee leftAnkle
    rightLegAngle := calculateAngle rightHip rightKnee rightAnkle
    leftShoulderAngle := calculateAngle leftElbow leftShoulder leftHip
    rightShoulderAngle := calculateAngle rightElbow rightShoulder rightHip
    leftHipAngle := calculateAngle leftShoulder leftHip leftKnee
    rightHipAngle := calculateAngle rightShoulder rightHip rightKnee
    shoulderAlignment := calculateAlignment leftShoulder
      ⟨(leftShoulder.x + rightShoulder.x) / 2, (leftShoulder.y + rightShoulder.y) / 2, 0, none⟩
      rightShoulder
    hipWidth := calculateDistance leftHip rightHip
    shoulderWidth := calculateDistance leftShoulder rightShoulder
    bodyAlignment := calculateAlignment leftShoulder leftHip leftAnkle
    torsoAngle := atan2
      ((leftHip.y + rightHip.y) / 2 - (leftShoulder.y + rightShoulder.y) / 2)
      ((leftHip.x + rightHip.x) / 2 - (leftShoulder.x + rightShoulder.x) / 2) * 180 / Real.pi }

def plankCriteria (f : Features) : List Prop :=
  [160 < f.leftArmAngle ∧ 160 < f.rightArmAngle,
   160 < f.leftLegAngle ∧ 160 < f.rightLegAngle,
   0.7 < f.bodyAlignment,
   |f.leftShoulder.y - f.leftHip.y| < 0.15,
   70 < f.leftShoulderAngle ∧ f.leftShoulderAngle < 110]

def plankWeights : List ℝ := [1, 1, 1.5, 1, 0.8]

noncomputable def plankFeedback (f : Features) : String :=
  if ¬ (plankCriteria f).getD 2 False then "Keep your body in a straight line from head to heels"
  else if ¬ (plankCriteria f).getD 3 False then "Lower your hips to align with shoulders"
  else "Great! Keep your core engaged and breathe steadily"

noncomputable def plankResult (f : Features) : PoseClassification :=
  { pose := YOGA_POSES.PLANK
    confidence := calculatePoseConfidence (plankCriteria f) plankWeights
    feedback := plankFeedback f }

def downwardDogCriteria (f : Features) : List Prop :=
  [150 < f.leftArmAngle ∧ 150 < f.rightArmAngle,
   140 < f.leftLegAngle ∧ 140 < f.rightLegAngle,
   f.leftHip.y < f.leftShoulder.y - 0.1,
   100 < f.leftHipAngle ∧ f.leftHipAngle < 140,
   30 < |f.torsoAngle| ∧ |f.torsoAngle| < 70]

def downwardDogWeights : List ℝ := [1, 1, 1.5, 1.2, 1]

noncomputable def downwardDogFeedback (f : Features) : String :=
  if ¬ (downwardDogCriteria f).getD 2 False then "Lift your hips higher to form an inverted V"
  else if ¬ (downwardDogCriteria f).getD 1 False then "Straighten your legs more"
  else "Excellent! Press heels toward ground and relax your neck"

noncomputable def downwardDogResult (f : Features) : PoseClassification :=
  { pose := YOGA_POSES.DOWNWARD_DOG
    confidence := calculatePoseConfidence (downwardDogCriteria f) downwardDogWeights
    feedback := downwardDogFeedback f }

def warrior2Criteria (f : Features) : List Prop :=
  [160 < f.leftArmAngle ∨ 160 < f.rightArmAngle,
   40 < |f.leftLegAngle - f.rightLegAngle|,
   isBodyVertical f.leftShoulder f.leftHip f.leftAnkle ∨
     isBodyVertical f.rightShoulder f.rightHip f.rightAnkle,
   |f.leftShoulder.y - f.rightShoulder.y| < 0.08,
   f.shoulderWidth * 1.3 < f.hipWidth]

def warrior2Weights : List ℝ := [1, 1.5, 1.2, 0.8, 1]

noncomputable def warrior2Feedback (f : Features) : String :=
  if ¬ (warrior2Criteria f).getD 2 False then "Keep your torso upright and centered"
  else if ¬ (warrior2Criteria f).getD 1 False then "Bend your front knee more, keep back leg straight"
  else "Perfect! Arms parallel to ground, front knee over ankle"

noncomputable def warrior2Result (f : Features) : PoseClassification :=
  { pose := YOGA_POSES.WARRIOR_II
    confidence := calculatePoseConfidence (warrior2Criteria f) warrior2Weights
    feedback := warrior2Feedback f }

def warrior1Criteria (f : Features) : List Prop :=
  [f.leftWrist.y < f.leftShoulder.y - 0.15 ∨ f.rightWrist.y < f.rightShoulder.y - 0.15,
   40 < |f.leftLegAngle - f.rightLegAngle|,
   isBodyVertical f.leftShoulder f.leftHip f.leftAnkle ∨
     isBodyVertical f.rightShoulder f.rightHip f.rightAnkle,
   f.shoulderWidth * 1.2 < f.hipWidth]

def warrior1Weights : List ℝ := [1.2, 1.5, 1.2, 1]

noncomputable def warrior1Feedback (f : Features) : String :=
  if ¬ (warrior1Criteria f).getD 0 False then "Raise your arms higher overhead"
  else if ¬ (warrior1Criteria f).getD 2 False then "Keep your chest lifted and facing forward"
  else "Great! Reach up through your fingertips, ground through back foot"

noncomputable def warrior1Result (f : Features) : PoseClassification :=
  { pose := YOGA_POSES.WARRIOR_I
    confidence := calculatePoseConfidence (warrior1Criteria f) warrior1Weights
    feedback := warrior1Feedback f }

def treeCriteria (f : Features) : List Prop :=
  [70 < |f.leftLegAngle - f.rightLegAngle|,
   160 < f.leftLegAngle ∨ 160 < f.rightLegAngle,
   f.leftLegAngle < 100 ∨ f.rightLegAngle < 100,
   |f.leftShoulder.x - f.rightShoulder.x| < 0.1,
   isBodyVertical f.leftShoulder f.leftHip f.leftAnkle ∨
     isBodyVertical f.rightShoulder f.rightHip f.rightAnkle]

def treeWeights : List ℝ := [1.5, 1, 1, 1, 1.2]

noncomputable def treeFeedback (f : Features) : String :=
  if ¬ (treeCriteria f).getD 4 False then "Find your center and stand tall"
  else if ¬ (treeCriteria f).getD 2 False then "Bring your foot higher on your thigh"
  else "Wonderful balance! Focus on a fixed point to maintain stability"

noncomputable def treeResult (f : Features) : PoseClassification :=
  { pose := YOGA_POSES.TREE
    confidence := calculatePoseConfidence (treeCriteria f) treeWeights
    feedback := treeFeedback f }

def mountainCriteria (f : Features) : List Prop :=
  [160 < f.leftLegAngle ∧ 160 < f.rightLegAngle,
   |f.leftHip.y - f.rightHip.y| < 0.05,
   isBodyVertical f.leftShoulder f.leftHip f.leftAnkle,
   |f.leftShoulder.x - f.rightShoulder.x| < 0.1,
   0.8 < f.shoulderAlignment]

def mountainWeights : List ℝ := [1, 1, 1.5, 1, 1]

noncomputable def mountainFeedback (f : Features) : String :=
  if ¬ (mountainCriteria f).getD 2 False then "Stand taller with weight evenly distributed"
  else if ¬ (mountainCriteria f).getD 1 False then "Level your hips and engage your core"
  else "Perfect alignment! Breathe deeply and maintain this foundation"

noncomputable def mountainResult (f : Features) : PoseClassification :=
  { pose := YOGA_POSES.MOUNTAIN
    confidence := calculatePoseConfidence (mountainCriteria f) mountainWeights
    feedback := mountainFeedback f }

def childCriteria (f : Features) : List Prop :=
  [f.leftLegAngle < 90 ∧ f.rightLegAngle < 90,
   f.leftShoulder.y + 0.1 < f.leftHip.y,
   f.leftHip.y - 0.05 < f.nose.y,
   f.leftShoulderAngle < 100 ∧ f.rightShoulderAngle < 100,
   |f.leftKnee.y - f.rightKnee.y| < 0.1]

def childWeights : List ℝ := [1, 1, 1.2, 0.8, 0.8]

noncomputable def childFeedback (f : Features) : String :=
  if ¬ (childCriteria f).getD 2 False then "Lower your forehead closer to the ground"
  else if ¬ (childCriteria f).getD 0 False then "Sit back deeper on your heels"
  else "Relax completely. Let your forehead rest and breathe deeply"

noncomputable def childResult (f : Features) : PoseClassification :=
  { pose := YOGA_POSES.CHILD
    confidence := calculatePoseConfidence (childCriteria f) childWeights
    feedback := childFeedback f }

def cobraCriteria (f : Features) : List Prop :=
  [100 < f.leftArmAngle ∧ f.leftArmAngle < 170 ∧ 100 < f.rightArmAngle ∧ f.rightArmAngle < 170,
   f.leftShoulder.y < f.leftHip.y - 0.1,
   150 < f.leftLegAngle ∧ 150 < f.rightLegAngle,
   120 < f.leftShoulderAngle ∧ 120 < f.rightShoulderAngle,
   |f.torsoAngle + 90| < 40]

def cobraWeights : List ℝ := [1.2, 1.5, 1, 1, 1.2]

noncomputable def cobraFeedback (f : Features) : String :=
  if ¬ (cobraCriteria f).getD 1 False then "Lift your chest higher, press through your palms"
  else if ¬ (cobraCriteria f).getD 3 False then "Draw shoulders back and down, away from ears"
  else "Beautiful! Keep legs engaged and gaze forward and up"

noncomputable def cobraResult (f : Features) : PoseClassification :=
  { pose := YOGA_POSES.COBRA
    confidence := calculatePoseConfidence (cobraCriteria f) cobraWeights
    feedback := cobraFeedback f }

def unknownResult : PoseClassification :=
  ⟨"Unknown Pose", 0.50, "Position yourself clearly or try a pose from the library"⟩

def noLandmarksResult : PoseClassification :=
  ⟨"Position Your Body", 0, "Unable to detect pose landmarks"⟩

def showFullBodyResult : PoseClassification :=
  ⟨"Show Full Body", 0, "Please step back to show your full body from head to feet in the frame"⟩

def moveBackResult : PoseClassification :=
  ⟨"Move Back", 0, "Step back from the camera to fit your entire body in the frame"⟩

/-- The per-pose rule cascade of `classifyPose`, lines 247-380 of the
source: each pose in order, accepted at its criteria-count threshold. -/
noncomputable def classifyFromFeatures (f : Features) : PoseClassification :=
  if 4 ≤ metCount (plankCriteria f) then plankResult f
  else if 4 ≤ metCount (downwardDogCriteria f) then downwardDogResult f
  else if 4 ≤ metCount (warrior2Criteria f) then warrior2Result f
  else if 3 ≤ metCount (warrior1Criteria f) then warrior1Result f
  else if 4 ≤ metCount (treeCriteria f) then treeResult f
  else if 4 ≤ metCount (mountainCriteria f) then mountainResult f
  else if 4 ≤ metCount (childCriteria f) then childResult f
  else if 3 ≤ metCount (cobraCriteria f) then cobraResult f
  else unknownResult

/-- The eight required landmarks: both shoulders (11, 12), hips (23, 24),
knees (25, 26) and ankles (27, 28). -/
def requiredLandmarks (landmarks : List Landmark) : List Landmark :=
  [landmarks.getD 11 defaultLandmark, landmarks.getD 12 defaultLandmark,
   landmarks.getD 23 defaultLandmark, landmarks.getD 24 defaultLandmark,
   landmarks.getD 25 defaultLandmark, landmarks.getD 26 defaultLandmark,
   landmarks.getD 27 defaultLandmark, landmarks.getD 28 defaultLandmark]

/-- `landmark.visibility !== undefined && landmark.visibility > 0.5` for
every required landmark. -/
def allVisible (landmarks : List Landmark) : Prop :=
  ∀ lm ∈ requiredLandmarks landmarks, ∃ v, lm.visibility = some v ∧ 0.5 < v

/-- `|max(shoulder.y) - max(ankle.y)|`, the body-height estimate. -/
noncomputable def bodyHeight (landmarks : List Landmark) : ℝ :=
  |max (landmarks.getD 11 defaultLandmark).y (landmarks.getD 12 defaultLandmark).y -
    max (landmarks.getD 27 defaultLandmark).y (landmarks.getD 28 defaultLandmark).y|

/-- `classifyPose` (the richer variant of the source): length guard,
visibility guard, body-height guard, then the ordered rule cascade. -/
noncomputable def classifyPose (poseResult : PoseResult) : PoseClassification :=
  match poseResult.landmarks with
  | none => noLandmarksResult
  | some landmarks =>
    if landmarks.length < 33 then noLandmarksResult
    else if ¬ allVisible landmarks then showFullBodyResult
    else if bodyHeight landmarks < 0.4 then moveBackResult
    else classifyFromFeatures (computeFeatures landmarks)

/-- One entry of the specification's ordered rule table: a criteria list,
an acceptance threshold, and the classification built on acceptance. -/
structure PoseRule where
  criteria : Features → List Prop
  threshold : ℕ
  result : Features → PoseClassification

/-- Specification-side model of the fixed evaluation order: "Plank →
Downward Dog → Warrior II → Warrior I → Tree → Mountain → Child's →
Cobra", written from the spec's words to be compared with the source's
cascade `classifyFromFeatures`. -/
noncomputable def poseRuleOrder : List PoseRule :=
  [⟨plankCriteria, 4, plankResult⟩,
   ⟨downwardDogCriteria, 4, downwardDogResult⟩,
   ⟨warrior2Criteria, 4, warrior2Result⟩,
   ⟨warrior1Criteria, 3, warrior1Result⟩,
   ⟨treeCriteria, 4, treeResult⟩,
   ⟨mountainCriteria, 4, mountainResult⟩,
   ⟨childCriteria, 4, childResult⟩,
   ⟨cobraCriteria, 3, cobraResult⟩]

/-- Specification-side model: return the first rule of the list whose
criteria-met count reaches its threshold, never considering later rules;
the unknown-pose fallback when none matches. -/
noncomputable def firstMatchingPose : List PoseRule → Features → PoseClassification
  | [], _ => unknownResult
  | r :: rs, f => if r.threshold ≤ metCount (r.criteria f) then r.result f else firstMatchingPose rs f

end Classifier

/-! ## The announcement controller (src/src/hooks/useSpeechFeedback.ts) -/

def SAME_POSE_COOLDOWN : ℤ := 10000

def ANNOUNCEMENT_COOLDOWN : ℤ := 3500

def REQUIRED_STABLE_DETECTIONS : ℕ := 8

def POSE_HISTORY_SIZE : ℕ := 12

def STABILITY_THRESHOLD : ℚ := 0.65

/-- The whitespace characters JavaScript's `String.prototype.trim`
removes, restricted to the ones that can occur here. -/
def isSpace (c : Char) : Bool :=
  c == ' ' || c == '\t' || c == '\n' || c == '\r'

/-- JavaScript's `s.trim()`: drop whitespace from both ends. -/
def jsTrim (s : String) : String :=
  String.mk (((s.toList.dropWhile isSpace).reverse.dropWhile isSpace).reverse)

/-- `getSpokenPoseName`: `poseName.match(/^([^(]+)/)` keeps the longest
nonempty leading run of characters other than a left parenthesis; when
the match succeeds the captured group is trimmed, otherwise the name is
returned unchanged. -/
def getSpokenPoseName (poseName : String) : String :=
  let captured := poseName.toList.takeWhile (fun c => c != '(')
  if captured.isEmpty then poseName else jsTrim (String.mk captured)

/-- JavaScript's `s.split(sep)` over single-character delimiters: the
(always nonempty) list of delimiter-free segments. -/
def splitOnDelims (p : Char → Bool) : List Char → List (List Char)
  | [] => [[]]
  | c :: cs =>
    if p c then [] :: splitOnDelims p cs
    else
      match splitOnDelims p cs with
      | [] => [[c]]
      | s :: rest => (c :: s) :: rest

/-- `getConciseFeedback`: `feedback.split(/[.!]/)`, then the first
segment trimmed (the segment list of a split is never empty, so the
`sentences.length > 0` branch is always taken). -/
def getConciseFeedback (feedback : String) : String :=
  let sentences := splitOnDelims (fun c => c == '.' || c == '!') feedback.toList
  match sentences with
  | [] => feedback
  | s :: _ => jsTrim (String.mk s)

/-- `checkPoseStability`: false below the 8-entry minimum, otherwise the
share of entries equal to `poseName` reaches the 65% threshold. -/
def checkPoseStability (history : List String) (poseName : String) : Bool :=
  if history.length < REQUIRED_STABLE_DETECTIONS then false
  else decide (STABILITY_THRESHOLD ≤ ((history.countP (fun p => p == poseName) : ℚ) / (history.length : ℚ)))

/-- One step of `getMostStablePose`'s occurrence counting: JavaScript
object insertion order keeps the first-occurrence order of the keys. -/
def bump (acc : List (String × ℕ)) (pose : String) : List (String × ℕ) :=
  if acc.any (fun pc => pc.1 == pose) then
    acc.map (fun pc => if pc.1 == pose then (pc.1, pc.2 + 1) else pc)
  else acc ++ [(pose, 1)]

/-- The `counts` record of `getMostStablePose`, in key insertion order. -/
def poseCounts (history : List String) : List (String × ℕ) :=
  history.foldl bump []

/-- The `(maxCount, mostCommon)` fold of `getMostStablePose`: a later
entry wins only with a strictly greater count. -/
def mostCommonPose (counts : List (String × ℕ)) : ℕ × String :=
  counts.foldl (fun m pc => if m.1 < pc.2 then (pc.2, pc.1) else m) (0, "")

/-- `getMostStablePose`: below 8 entries no decision; otherwise the most
common pose of the history, provided it reaches the 65% share. -/
def getMostStablePose (history : List String) : Option String :=
  if history.length < REQUIRED_STABLE_DETECTIONS then none
  else
    let m := mostCommonPose (poseCounts history)
    if STABILITY_THRESHOLD ≤ ((m.1 : ℚ) / (history.length : ℚ)) then some m.2 else none

/-- The controller's mutable refs: last announced pose, last pose-change
time, last feedback, the announcement-cooldown marker, the bounded
recent-pose history and the current stable pose. -/
structure SpeechState where
  lastAnnouncedPose : String
  lastPoseChangeTime : ℤ
  lastFeedback : String
  announcementCooldown : ℤ
  recentPoses : List String
  currentStablePose : String
deriving DecidableEq

/-- The refs' initial values (also what `reset()` restores). -/
def initialSpeechState : SpeechState := ⟨"", 0, "", 0, [], ""⟩

/-- `speakPose(poseName, feedback)` at time `now`: returns the updated
state and the text handed to `announceText`, if any. `isEnabled` is the
controller's enabled flag and `speechAvailable` models
`'speechSynthesis' in window`. `SAME_POSE_COOLDOWN * 3 / 2` is the
source's `SAME_POSE_COOLDOWN * 1.5` (exactly 15000). -/
def speakPose (isEnabled speechAvailable : Bool) (now : ℤ) (poseName feedback : String)
    (s : SpeechState) : SpeechState × Option String :=
  if ¬ (isEnabled && speechAvailable) then (s, none)
  else
    let isWarning := poseName == "Show Full Body" || poseName == "Move Back"
    if isWarning then
      let s1 := { s with recentPoses := [], currentStablePose := "" }
      if poseName == s.lastAnnouncedPose ∧ now - s.lastPoseChangeTime < SAME_POSE_COOLDOWN * 3 / 2 then
        (s1, none)
      else if now - s.announcementCooldown < ANNOUNCEMENT_COOLDOWN then (s1, none)
      else ({ s1 with lastAnnouncedPose := poseName, lastPoseChangeTime := now,
                      announcementCooldown := now }, some feedback)
    else
      let pushed := s.recentPoses ++ [poseName]
      let history := if POSE_HISTORY_SIZE < pushed.length then pushed.tail else pushed
      let s1 := { s with recentPoses := history }
      match getMostStablePose history with
      | none => (s1, none)
      | some stablePose =>
        if stablePose == s.currentStablePose then
          if SAME_POSE_COOLDOWN < now - s.lastPoseChangeTime ∧ feedback ≠ s.lastFeedback ∧
              ANNOUNCEMENT_COOLDOWN < now - s.announcementCooldown then
            ({ s1 with lastFeedback := feedback, announcementCooldown := now },
             some (getConciseFeedback feedback))
          else (s1, none)
        else if now - s.announcementCooldown < ANNOUNCEMENT_COOLDOWN then (s1, none)
        else if ¬ checkPoseStability history stablePose then (s1, none)
        else ({ s1 with currentStablePose := stablePose, lastAnnouncedPose := stablePose,
                        lastFeedback := feedback, lastPoseChangeTime := now,
                        announcementCooldown := now },
              some (getSpokenPoseName stablePose ++ ". " ++ getConciseFeedback feedback))

/-- One frame handed to the controller: the enabled flag and speech
capability at that moment, the `Date.now()` timestamp, and the
classifier's pose label and feedback. -/
structure SpeechFrame where
  enabled : Bool
  speechAvailable : Bool
  now : ℤ
  pose : String
  feedback : String

/-- Run `speakPose` over a sequence of frames, collecting each emitted
announcement together with the time it was spoken. -/
def runSpeech : List SpeechFrame → SpeechState → SpeechState × List (ℤ × String)
  | [], s => (s, [])
  | f :: fs, s =>
    let step := speakPose f.enabled f.speechAvailable f.now f.pose f.feedback s
    let rest := runSpeech fs step.1
    match step.2 with
    | none => rest
    | some u => (rest.1, (f.now, u) :: rest.2)

/-! ## Concrete inputs used by the witnesses -/

/-- A fully visible landmark at `(px, py)` (visibility 0.9). -/
def wPoint (px py : ℝ) : Landmark := ⟨px, py, 0, some 0.9⟩

/-- A 33-landmark skeleton that satisfies at least 4 of Plank's 5
criteria and at least 4 of Downward Dog's 5 criteria at once: arms and
legs exactly straight, shoulder-hip-ankle collinear at 45 degrees, hips
0.12 above the shoulders. -/
def witnessLandmarks : List Landmark :=
  [wPoint 0.05 0.9,                      -- 0: nose
   wPoint 0 0, wPoint 0 0, wPoint 0 0, wPoint 0 0, wPoint 0 0,
   wPoint 0 0, wPoint 0 0, wPoint 0 0, wPoint 0 0, wPoint 0 0,
   wPoint 0.1 0.8, wPoint 0.1 0.8,      -- 11, 12: shoulders
   wPoint 0.2 0.8, wPoint 0.2 0.8,      -- 13, 14: elbows
   wPoint 0.3 0.8, wPoint 0.3 0.8,      -- 15, 16: wrists
   wPoint 0 0, wPoint 0 0, wPoint 0 0, wPoint 0 0, wPoint 0 0, wPoint 0 0,
   wPoint 0.22 0.68, wPoint 0.22 0.68,  -- 23, 24: hips
   wPoint 0.37 0.53, wPoint 0.37 0.53,  -- 25, 26: knees
   wPoint 0.52 0.38, wPoint 0.52 0.38,  -- 27, 28: ankles
   wPoint 0 0, wPoint 0 0, wPoint 0 0, wPoint 0 0]

def witnessPoseResult : PoseResult := ⟨some witnessLandmarks, [], 0.9⟩

/-- 33 landmarks all lacking a visibility value. -/
def hiddenLandmarks : List Landmark := List.replicate 33 defaultLandmark

def hiddenPoseResult : PoseResult := ⟨some hiddenLandmarks, [], 0.9⟩

/-- The eight named yoga-pose labels the classifier can return. -/
def eightPoseNames : List String :=
  [YOGA_POSES.MOUNTAIN, YOGA_POSES.WARRIOR_I, YOGA_POSES.WARRIOR_II, YOGA_POSES.TREE,
   YOGA_POSES.DOWNWARD_DOG, YOGA_POSES.PLANK, YOGA_POSES.CHILD, YOGA_POSES.COBRA]

/-! ## Theorems -/

/-- C10: when the controller is disabled or the platform speech
capability is absent, `speakPose` returns at once: the state (history
queue, stable-pose marker and all three timestamps) is unchanged and no
utterance is emitted, so such frames are dropped rather than
accumulated. -/
theorem speakPose_disabled_noop (isEnabled speechAvailable : Bool) (now : ℤ)
    (poseName feedback : String) (s : SpeechState)
    (h : isEnabled = false ∨ speechAvailable = false) :
    speakPose isEnabled speechAvailable now poseName feedback s = (s, none) := by
  rcases h with h | h <;> subst h <;> simp [speakPose]

theorem speakPose_disabled_noop_witness :
    speakPose false true 123456 "Tree Pose (Vrksasana)" "Find your balance. Breathe."
      initialSpeechState = (initialSpeechState, none) :=
  speakPose_disabled_noop false true 123456 "Tree Pose (Vrksasana)"
    "Find your balance. Breathe." initialSpeechState (Or.inl rfl)

lemma takeWhile_append_of_all {p : Char → Bool} :
    ∀ l1 l2 : List Char, (∀ c ∈ l1, p c = true) →
      (l1 ++ l2).takeWhile p = l1 ++ l2.takeWhile p := by
  intro l1
  induction l1 with
  | nil => intro l2 _; simp
  | cons c cs ih =>
    intro l2 h
    simp only [List.cons_append, List.takeWhile_cons]
    rw [h c (by simp)]
    simp only [if_true, List.cons_inj_right]
    exact ih l2 fun d hd => h d (by simp [hd])

lemma dropWhile_of_head {p : Char → Bool} (l : List Char)
    (h : ∀ c, l.head? = some c → p c = false) : l.dropWhile p = l := by
  cases l with
  | nil => rfl
  | cons c cs =>
    rw [List.dropWhile_cons, h c rfl]
    simp

lemma trimCore_eq (l : List Char)
    (hh : ∀ c, l.head? = some c → isSpace c = false)
    (hl : ∀ c, l.getLast? = some c → isSpace c = false) :
    ((l.dropWhile isSpace).reverse.dropWhile isSpace).reverse = l := by
  rw [dropWhile_of_head l hh]
  rw [dropWhile_of_head l.reverse (by intro c hc; apply hl; rwa [List.head?_reverse] at hc)]
  exact List.reverse_reverse l

lemma jsTrim_clean (l : List Char)
    (hh : ∀ c, l.head? = some c → isSpace c = false)
    (hl : ∀ c, l.getLast? = some c → isSpace c = false) :
    jsTrim (String.mk l) = String.mk l := by
  unfold jsTrim
  rw [show (String.mk l).toList = l from rfl, trimCore_eq l hh hl]

lemma jsTrim_append_space (l : List Char) (hne : l ≠ [])
    (hh : ∀ c, l.head? = some c → isSpace c = false)
    (hl : ∀ c, l.getLast? = some c → isSpace c = false) :
    jsTrim (String.mk (l ++ [' '])) = String.mk l := by
  unfold jsTrim
  rw [show (String.mk (l ++ [' '])).toList = l ++ [' '] from rfl]
  have h2 : (l ++ [' ']).dropWhile isSpace = l ++ [' '] := by
    apply dropWhile_of_head
    intro c hc
    cases l with
    | nil => exact absurd rfl hne
    | cons a as =>
      simp only [List.cons_append, List.head?_cons, Option.some_inj] at hc
      exact hc ▸ hh a rfl
  rw [h2]
  have h3 : (l ++ [' ']).reverse = ' ' :: l.reverse := by simp
  rw [h3, List.dropWhile_cons]
  simp only [show isSpace ' ' = true from rfl, if_true]
  rw [dropWhile_of_head l.reverse (by intro c hc; apply hl; rwa [List.head?_reverse] at hc)]
  exact congrArg String.mk (List.reverse_reverse l)

lemma splitOnDelims_head (p : Char → Bool) (l : List Char) :
    ∃ rest, splitOnDelims p l = l.takeWhile (fun c => ! p c) :: rest := by
  induction l with
  | nil => exact ⟨[], rfl⟩
  | cons c cs ih =>
    obtain ⟨rest, hrest⟩ := ih
    by_cases hc : p c
    · refine ⟨splitOnDelims p cs, ?_⟩
      simp [splitOnDelims, hc, List.takeWhile_cons]
    · refine ⟨rest, ?_⟩
      simp only [splitOnDelims, hc, if_false, hrest, List.takeWhile_cons]
      simp [hc]

lemma getConciseFeedback_first_segment (fb : List Char) (d : Char) (rest : String)
    (hfb : ∀ c ∈ fb, c ≠ '.' ∧ c ≠ '!')
    (hfh : ∀ c, fb.head? = some c → isSpace c = false)
    (hfl : ∀ c, fb.getLast? = some c → isSpace c = false)
    (hd : d = '.' ∨ d = '!') :
    getConciseFeedback (String.mk (fb ++ d :: rest.toList)) = String.mk fb := by
  have hpd : (d == '.' || d == '!') = true := by rcases hd with rfl | rfl <;> rfl
  unfold getConciseFeedback
  rw [show (String.mk (fb ++ d :: rest.toList)).toList = fb ++ d :: rest.toList from rfl]
  obtain ⟨r, hr⟩ := splitOnDelims_head (fun c => c == '.' || c == '!') (fb ++ d :: rest.toList)
  rw [hr]
  rw [takeWhile_append_of_all fb (d :: rest.toList)
        (fun c hc => by simp [(hfb c hc).1, (hfb c hc).2])]
  rw [show (d :: rest.toList).takeWhile (fun c => ! (c == '.' || c == '!')) = [] from by
    rw [List.takeWhile_cons, hpd]
    rfl]
  rw [List.append_nil]
  exact jsTrim_clean fb hfh hfl

/-- C8: `getSpokenPoseName` strips a parenthetical transliteration suffix
from a (trimmed, parenthesis-free, nonempty) pose name, and
`getConciseFeedback` keeps only the (trimmed) text before the first
delimiter, be it '.' or '!'; in particular the two round-trips of the
spec hold, as does the classifier's own '!'-first feedback string. -/
theorem spoken_name_and_concise_feedback
    (name : List Char) (tail : String) (fb : List Char) (d : Char) (rest : String)
    (hne : name ≠ [])
    (hpar : ∀ c ∈ name, c ≠ '(')
    (hh : ∀ c, name.head? = some c → isSpace c = false)
    (hl : ∀ c, name.getLast? = some c → isSpace c = false)
    (hfb : ∀ c ∈ fb, c ≠ '.' ∧ c ≠ '!')
    (hfh : ∀ c, fb.head? = some c → isSpace c = false)
    (hfl : ∀ c, fb.getLast? = some c → isSpace c = false)
    (hd : d = '.' ∨ d = '!') :
    getSpokenPoseName (String.mk (name ++ ' ' :: '(' :: tail.toList)) = String.mk name ∧
    getConciseFeedback (String.mk (fb ++ d :: rest.toList)) = String.mk fb ∧
    getSpokenPoseName "Tree Pose (Vrksasana)" = "Tree Pose" ∧
    getConciseFeedback "Find your balance. Breathe." = "Find your balance" ∧
    getConciseFeedback "Great! Keep your core engaged and breathe steadily" = "Great" := by
  refine ⟨?_, getConciseFeedback_first_segment fb d rest hfb hfh hfl hd,
    by decide, by decide, by decide⟩
  unfold getSpokenPoseName
  rw [show (String.mk (name ++ ' ' :: '(' :: tail.toList)).toList =
        name ++ ' ' :: '(' :: tail.toList from rfl]
  rw [takeWhile_append_of_all name (' ' :: '(' :: tail.toList)
        (fun c hc => by simp [hpar c hc])]
  rw [show (' ' :: '(' :: tail.toList).takeWhile (fun c => c != '(') = [' '] from rfl]
  rw [if_neg (by simp)]
  exact jsTrim_append_space name hne hh hl

theorem spoken_name_and_concise_feedback_witness :
    getSpokenPoseName (String.mk ("Tree Pose".toList ++ ' ' :: '(' :: "Vrksasana)".toList)) =
      String.mk "Tree Pose".toList ∧
    getConciseFeedback (String.mk ("Great".toList ++
        '!' :: " Keep your core engaged and breathe steadily".toList)) =
      String.mk "Great".toList ∧
    getSpokenPoseName "Tree Pose (Vrksasana)" = "Tree Pose" ∧
    getConciseFeedback "Find your balance. Breathe." = "Find your balance" ∧
    getConciseFeedback "Great! Keep your core engaged and breathe steadily" = "Great" :=
  spoken_name_and_concise_feedback "Tree Pose".toList "Vrksasana)" "Great".toList '!'
    " Keep your core engaged and breathe steadily"
    (by decide) (by decide) (by decide) (by decide) (by decide) (by decide) (by decide)
    (Or.inr rfl)

lemma speakPose_step (now : ℤ) (poseName feedback : String) (s : SpeechState)
    (h1 : poseName ≠ "Show Full Body") (h2 : poseName ≠ "Move Back")
    (hlen : s.recentPoses.length + 1 < 8) :
    speakPose true true now poseName feedback s =
      ({ s with recentPoses := s.recentPoses ++ [poseName] }, none) := by
  have hw : (poseName == "Show Full Body" || poseName == "Move Back") = false := by
    simp [h1, h2]
  have hcap : ¬ POSE_HISTORY_SIZE < s.recentPoses.length + 1 := by
    simp only [POSE_HISTORY_SIZE]
    omega
  have hnone : getMostStablePose (s.recentPoses ++ [poseName]) = none := by
    rw [getMostStablePose, if_pos]
    simp only [REQUIRED_STABLE_DETECTIONS, List.length_append, List.length_cons, List.length_nil]
    omega
  simp [speakPose, hw, hcap, hnone]

lemma runSpeech_accumulate :
    ∀ (frames : List SpeechFrame) (s : SpeechState),
    (∀ f ∈ frames, f.enabled = true ∧ f.speechAvailable = true ∧
      f.pose ≠ "Show Full Body" ∧ f.pose ≠ "Move Back") →
    s.recentPoses.length + frames.length < 8 →
    runSpeech frames s =
      ({ s with recentPoses := s.recentPoses ++ frames.map (fun f => f.pose) }, []) := by
  intro frames
  induction frames with
  | nil => intro s _ _; simp [runSpeech]
  | cons f fs ih =>
    intro s hall hlen
    obtain ⟨he, hsa, hw1, hw2⟩ := hall f (by simp)
    have hstep := speakPose_step f.now f.pose f.feedback s hw1 hw2 (by simp at hlen; omega)
    rw [runSpeech]
    rw [he, hsa, hstep]
    simp only []
    rw [ih _ (fun g hg => hall g (by simp [hg])) (by simp at hlen ⊢; omega)]
    simp [List.append_assoc]

lemma countP_replicate_self (label : String) (n : ℕ) :
    (List.replicate n label).countP (fun p => p == label) = n := by
  induction n with
  | zero => rfl
  | succ n ih => rw [List.replicate_succ, List.countP_cons]; simp [ih]

lemma bump_singleton (label : String) (k : ℕ) :
    bump [(label, k)] label = [(label, k + 1)] := by
  simp [bump]

lemma foldl_bump_replicate (label : String) :
    ∀ (n k : ℕ), List.foldl bump [(label, k)] (List.replicate n label) = [(label, k + n)] := by
  intro n
  induction n with
  | zero => intro k; simp
  | succ n ih =>
    intro k
    rw [List.replicate_succ, List.foldl_cons, bump_singleton, ih]
    congr 2
    omega

lemma poseCounts_replicate (label : String) (n : ℕ) (hn : 0 < n) :
    poseCounts (List.replicate n label) = [(label, n)] := by
  obtain ⟨m, rfl⟩ : ∃ m, n = m + 1 := ⟨n - 1, by omega⟩
  rw [poseCounts, List.replicate_succ, List.foldl_cons]
  rw [show bump [] label = [(label, 1)] from by simp [bump]]
  rw [foldl_bump_replicate]
  congr 2
  omega

lemma getMostStablePose_replicate (label : String) :
    getMostStablePose (List.replicate 8 label) = some label := by
  rw [getMostStablePose, if_neg (by simp [REQUIRED_STABLE_DETECTIONS])]
  rw [poseCounts_replicate label 8 (by norm_num)]
  rw [show mostCommonPose [(label, 8)] = (8, label) from by simp [mostCommonPose]]
  have hcond : STABILITY_THRESHOLD ≤ (((8, label).1 : ℕ) : ℚ) / ((List.replicate 8 label).length : ℚ) := by
    rw [List.length_replicate]
    norm_num [STABILITY_THRESHOLD]
  rw [if_pos hcond]

lemma checkPoseStability_replicate (label : String) :
    checkPoseStability (List.replicate 8 label) label = true := by
  rw [checkPoseStability, if_neg (by simp [REQUIRED_STABLE_DETECTIONS])]
  rw [countP_replicate_self, List.length_replicate]
  norm_num [STABILITY_THRESHOLD]

lemma speakPose_eighth (now : ℤ) (label feedback : String)
    (h1 : label ≠ "Show Full Body") (h2 : label ≠ "Move Back") (h3 : label ≠ "")
    (hc : ANNOUNCEMENT_COOLDOWN ≤ now) :
    speakPose true true now label feedback
      { initialSpeechState with recentPoses := List.replicate 7 label } =
      (⟨label, now, feedback, now, List.replicate 8 label, label⟩,
       some (getSpokenPoseName label ++ ". " ++ getConciseFeedback feedback)) := by
  have hw : (label == "Show Full Body" || label == "Move Back") = false := by
    simp [h1, h2]
  have hpush : List.replicate 7 label ++ [label] = List.replicate 8 label :=
    (List.replicate_succ' 7 label).symm
  have hcap : ¬ POSE_HISTORY_SIZE < (List.replicate 7 label).length + 1 := by
    simp [POSE_HISTORY_SIZE]
  have hcool : ¬ now < ANNOUNCEMENT_COOLDOWN := by
    simp only [ANNOUNCEMENT_COOLDOWN] at hc ⊢
    omega
  have hms : getMostStablePose [label, label, label, label, label, label, label, label] =
      some label := by
    rw [show [label, label, label, label, label, label, label, label] =
          List.replicate 8 label from rfl]
    exact getMostStablePose_replicate label
  have hst : checkPoseStability [label, label, label, label, label, label, label, label] label =
      true := by
    rw [show [label, label, label, label, label, label, label, label] =
          List.replicate 8 label from rfl]
    exact checkPoseStability_replicate label
  simp [speakPose, initialSpeechState, hw, hcap, hpush, POSE_HISTORY_SIZE,
    hms, h3, hcool, hst]

lemma runSpeech_append (l1 l2 : List SpeechFrame) :
    ∀ s : SpeechState,
    runSpeech (l1 ++ l2) s =
      ((runSpeech l2 (runSpeech l1 s).1).1,
       (runSpeech l1 s).2 ++ (runSpeech l2 (runSpeech l1 s).1).2) := by
  induction l1 with
  | nil => intro s; simp [runSpeech]
  | cons f fs ih =>
    intro s
    rw [List.cons_append, runSpeech, runSpeech, ih]
    rcases (speakPose f.enabled f.speechAvailable f.now f.pose f.feedback s).2 with _ | u <;> simp

/-- C2: from a fresh (or reset) enabled controller, the same non-warning
pose label on 7 consecutive frames triggers zero announcements, and the
8th consecutive frame with that label (the queue then holding 8
identical entries, a 100% share) triggers exactly one. The timestamps
are arbitrary except that the 8th is at least one global cooldown after
the initial cooldown marker 0, as every real `Date.now()` value is. -/
theorem controller_eighth_frame_announces
    (label feedback : String) (t1 t2 t3 t4 t5 t6 t7 t8 : ℤ)
    (h1 : label ≠ "Show Full Body") (h2 : label ≠ "Move Back") (h3 : label ≠ "")
    (h4 : ANNOUNCEMENT_COOLDOWN ≤ t8) :
    (runSpeech ([t1, t2, t3, t4, t5, t6, t7].map
        (fun t => ⟨true, true, t, label, feedback⟩)) initialSpeechState).2 = [] ∧
    (runSpeech ([t1, t2, t3, t4, t5, t6, t7, t8].map
        (fun t => ⟨true, true, t, label, feedback⟩)) initialSpeechState).2.length = 1 := by
  have hall : ∀ g ∈ ([t1, t2, t3, t4, t5, t6, t7].map
      (fun t => (⟨true, true, t, label, feedback⟩ : SpeechFrame))),
      g.enabled = true ∧ g.speechAvailable = true ∧
      g.pose ≠ "Show Full Body" ∧ g.pose ≠ "Move Back" := by
    intro g hg
    simp only [List.mem_map, List.mem_cons] at hg
    obtain ⟨t, _, rfl⟩ := hg
    exact ⟨rfl, rfl, h1, h2⟩
  have hlen : initialSpeechState.recentPoses.length +
      ([t1, t2, t3, t4, t5, t6, t7].map
        (fun t => (⟨true, true, t, label, feedback⟩ : SpeechFrame))).length < 8 := by
    simp [initialSpeechState]
  have h7 := runSpeech_accumulate _ initialSpeechState hall hlen
  constructor
  · rw [h7]
  · have hsplit : ([t1, t2, t3, t4, t5, t6, t7, t8].map
        (fun t => (⟨true, true, t, label, feedback⟩ : SpeechFrame))) =
        ([t1, t2, t3, t4, t5, t6, t7].map (fun t => ⟨true, true, t, label, feedback⟩)) ++
        [⟨true, true, t8, label, feedback⟩] := by simp
    rw [hsplit, runSpeech_append, h7]
    have hstate : ({ initialSpeechState with
        recentPoses := initialSpeechState.recentPoses ++
          (([t1, t2, t3, t4, t5, t6, t7].map
            (fun t => (⟨true, true, t, label, feedback⟩ : SpeechFrame))).map
              (fun f => f.pose)) } : SpeechState) =
        { initialSpeechState with recentPoses := List.replicate 7 label } := by
      simp [initialSpeechState, List.replicate]
    rw [hstate]
    rw [show runSpeech [⟨true, true, t8, label, feedback⟩]
          { initialSpeechState with recentPoses := List.replicate 7 label } =
        (⟨label, t8, feedback, t8, List.replicate 8 label, label⟩,
         [(t8, getSpokenPoseName label ++ ". " ++ getConciseFeedback feedback)]) from by
      rw [runSpeech, speakPose_eighth t8 label feedback h1 h2 h3 h4]
      rfl]
    simp

theorem controller_eighth_frame_announces_witness :
    (runSpeech ([1000, 1100, 1200, 1300, 1400, 1500, 1600].map
        (fun t => ⟨true, true, t, "Plank Pose (Phalakasana)", "Great form"⟩))
      initialSpeechState).2 = [] ∧
    (runSpeech ([1000, 1100, 1200, 1300, 1400, 1500, 1600, 3600].map
        (fun t => ⟨true, true, t, "Plank Pose (Phalakasana)", "Great form"⟩))
      initialSpeechState).2.length = 1 :=
  controller_eighth_frame_announces "Plank Pose (Phalakasana)" "Great form"
    1000 1100 1200 1300 1400 1500 1600 3600
    (by decide) (by decide) (by decide) (by decide)

lemma speakPose_warning_clears (now : ℤ) (w feedback : String) (s : SpeechState)
    (hw : w = "Show Full Body" ∨ w = "Move Back") :
    (speakPose true true now w feedback s).1.recentPoses = [] ∧
    (speakPose true true now w feedback s).1.currentStablePose = "" := by
  have hb : (w == "Show Full Body" || w == "Move Back") = true := by
    rcases hw with h | h <;> simp [h]
  rw [speakPose, if_neg (by simp)]
  simp only [hb, if_true]
  split_ifs <;> simp

/-- C6: a visibility-warning label ("Show Full Body" or "Move Back")
first empties the pose-history queue and clears the stable-pose marker;
consequently any run of at most 7 subsequent non-warning frames emits no
announcement at all — at least 8 such frames are needed before a new
stable pose can be announced. -/
theorem warning_resets_stability (s : SpeechState) (now : ℤ) (w feedback : String)
    (hw : w = "Show Full Body" ∨ w = "Move Back")
    (frames : List SpeechFrame)
    (hframes : ∀ f ∈ frames, f.enabled = true ∧ f.speechAvailable = true ∧
      f.pose ≠ "Show Full Body" ∧ f.pose ≠ "Move Back")
    (hlen : frames.length ≤ 7) :
    (speakPose true true now w feedback s).1.recentPoses = [] ∧
    (speakPose true true now w feedback s).1.currentStablePose = "" ∧
    (runSpeech frames (speakPose true true now w feedback s).1).2 = [] := by
  obtain ⟨hrec, hstable⟩ := speakPose_warning_clears now w feedback s hw
  refine ⟨hrec, hstable, ?_⟩
  have hacc := runSpeech_accumulate frames (speakPose true true now w feedback s).1 hframes
    (by rw [hrec]; simpa using by omega)
  rw [hacc]

theorem warning_resets_stability_witness :
    (speakPose true true 50000 "Show Full Body"
      "Please step back to show your full body from head to feet in the frame"
      initialSpeechState).1.recentPoses = [] ∧
    (speakPose true true 50000 "Show Full Body"
      "Please step back to show your full body from head to feet in the frame"
      initialSpeechState).1.currentStablePose = "" ∧
    (runSpeech ([50100, 50200, 50300, 50400, 50500, 50600, 50700].map
        (fun t => ⟨true, true, t, "Tree Pose (Vrksasana)", "Find your balance"⟩))
      (speakPose true true 50000 "Show Full Body"
        "Please step back to show your full body from head to feet in the frame"
        initialSpeechState).1).2 = [] :=
  warning_resets_stability initialSpeechState 50000 "Show Full Body"
    "Please step back to show your full body from head to feet in the frame"
    (Or.inl rfl)
    ([50100, 50200, 50300, 50400, 50500, 50600, 50700].map
      (fun t => ⟨true, true, t, "Tree Pose (Vrksasana)", "Find your balance"⟩))
    (by decide) (by decide)

lemma speakPose_cooldown (e sa : Bool) (now : ℤ) (p fb : String) (s : SpeechState) :
    ((speakPose e sa now p fb s).2 = none →
      (speakPose e sa now p fb s).1.announcementCooldown = s.announcementCooldown) ∧
    (∀ u, (speakPose e sa now p fb s).2 = some u →
      s.announcementCooldown + ANNOUNCEMENT_COOLDOWN ≤ now ∧
      (speakPose e sa now p fb s).1.announcementCooldown = now) := by
  rw [speakPose]
  by_cases hg : (e && sa) = true
  case neg =>
    rw [if_pos (by simpa using hg)]
    exact ⟨fun _ => rfl, fun u hu => by simp at hu⟩
  case pos =>
    rw [if_neg (by simpa using hg)]
    simp only []
    by_cases hwarn : (p == "Show Full Body" || p == "Move Back") = true
    · rw [if_pos hwarn]
      by_cases hrep : (p == s.lastAnnouncedPose) = true ∧
          now - s.lastPoseChangeTime < SAME_POSE_COOLDOWN * 3 / 2
      · rw [if_pos hrep]
        exact ⟨fun _ => rfl, fun u hu => by simp at hu⟩
      · rw [if_neg hrep]
        by_cases hcool : now - s.announcementCooldown < ANNOUNCEMENT_COOLDOWN
        · rw [if_pos hcool]
          exact ⟨fun _ => rfl, fun u hu => by simp at hu⟩
        · rw [if_neg hcool]
          refine ⟨fun h => by simp at h, fun u hu => ⟨?_, rfl⟩⟩
          simp only [ANNOUNCEMENT_COOLDOWN] at *
          omega
    · rw [if_neg hwarn]
      generalize (if POSE_HISTORY_SIZE < (s.recentPoses ++ [p]).length
          then (s.recentPoses ++ [p]).tail else s.recentPoses ++ [p]) = hist
      rcases hms : getMostStablePose hist with _ | stable
      · simp [hms]
      · simp only [hms]
        by_cases hsame : (stable == s.currentStablePose) = true
        · rw [if_pos hsame]
          by_cases hupd : SAME_POSE_COOLDOWN < now - s.lastPoseChangeTime ∧
              fb ≠ s.lastFeedback ∧ ANNOUNCEMENT_COOLDOWN < now - s.announcementCooldown
          · rw [if_pos hupd]
            refine ⟨fun h => by simp at h, fun u hu => ⟨?_, rfl⟩⟩
            obtain ⟨-, -, h3⟩ := hupd
            simp only [ANNOUNCEMENT_COOLDOWN] at *
            omega
          · rw [if_neg hupd]
            exact ⟨fun _ => rfl, fun u hu => by simp at hu⟩
        · rw [if_neg hsame]
          by_cases hcool : now - s.announcementCooldown < ANNOUNCEMENT_COOLDOWN
          · rw [if_pos hcool]
            exact ⟨fun _ => rfl, fun u hu => by simp at hu⟩
          · rw [if_neg hcool]
            by_cases hstab : checkPoseStability hist stable = true
            · rw [if_neg (by simpa using hstab)]
              refine ⟨fun h => by simp at h, fun u hu => ⟨?_, rfl⟩⟩
              simp only [ANNOUNCEMENT_COOLDOWN] at *
              omega
            · rw [if_pos (by simpa using hstab)]
              exact ⟨fun _ => rfl, fun u hu => by simp at hu⟩

lemma runSpeech_cooldown_chain :
    ∀ (frames : List SpeechFrame) (s : SpeechState),
    List.Chain (fun a b => a + ANNOUNCEMENT_COOLDOWN ≤ b)
      s.announcementCooldown ((runSpeech frames s).2.map Prod.fst) := by
  intro frames
  induction frames with
  | nil => intro s; simp [runSpeech]
  | cons f fs ih =>
    intro s
    rw [runSpeech]
    rcases hstep : (speakPose f.enabled f.speechAvailable f.now f.pose f.feedback s).2 with _ | u
    · simp only [hstep]
      have hcool := (speakPose_cooldown f.enabled f.speechAvailable f.now f.pose f.feedback s).1
        hstep
      have hchain := ih (speakPose f.enabled f.speechAvailable f.now f.pose f.feedback s).1
      rwa [hcool] at hchain
    · simp only [hstep, List.map_cons]
      have hcool := (speakPose_cooldown f.enabled f.speechAvailable f.now f.pose f.feedback s).2
        u hstep
      have hchain := ih (speakPose f.enabled f.speechAvailable f.now f.pose f.feedback s).1
      rw [hcool.2] at hchain
      exact List.Chain.cons hcool.1 hchain

lemma chain_rel_of_mem {R : ℤ → ℤ → Prop}
    (htrans : ∀ a b c, R a b → R b c → R a c) :
    ∀ (l : List ℤ) (a b : ℤ), List.Chain R a l → b ∈ l → R a b := by
  intro l
  induction l with
  | nil => intro a b _ hb; exact absurd hb (List.not_mem_nil b)
  | cons x xs ih =>
    intro a b hchain hb
    rcases List.chain_cons.mp hchain with ⟨hax, hxs⟩
    rcases List.mem_cons.mp hb with rfl | hb
    · exact hax
    · exact htrans a x b hax (ih x b hxs hb)

lemma pairwise_of_chain {R : ℤ → ℤ → Prop}
    (htrans : ∀ a b c, R a b → R b c → R a c) :
    ∀ (l : List ℤ) (a : ℤ), List.Chain R a l → List.Pairwise R l := by
  intro l
  induction l with
  | nil => intro a _; exact List.Pairwise.nil
  | cons x xs ih =>
    intro a hchain
    rcases List.chain_cons.mp hchain with ⟨_, hxs⟩
    exact List.Pairwise.cons (fun b hb => chain_rel_of_mem htrans xs x b hxs hb) (ih x hxs)

/-- C3: over any sequence of `speakPose` calls from the initial (reset)
state, any two emitted announcements are at least the 3500 ms global
cooldown apart: every emitting path first checks the cooldown against
the recorded announcement time and then records the new one. -/
theorem announcements_respect_global_cooldown (frames : List SpeechFrame) :
    List.Pairwise (fun a b => a + ANNOUNCEMENT_COOLDOWN ≤ b)
      ((runSpeech frames initialSpeechState).2.map Prod.fst) := by
  refine pairwise_of_chain ?_ _ initialSpeechState.announcementCooldown
    (runSpeech_cooldown_chain frames initialSpeechState)
  intro a b c hab hbc
  simp only [ANNOUNCEMENT_COOLDOWN] at *
  omega

/-- C5: when the landmark list is absent or shorter than 33 entries,
`classifyPose` returns the no-landmarks fallback with confidence exactly
0; as a total function it reads no landmark index on this path. -/
theorem classify_short_skeleton_fallback (pr : PoseResult)
    (h : pr.landmarks = none ∨ ∃ lms, pr.landmarks = some lms ∧ lms.length < 33) :
    classifyPose pr = noLandmarksResult := by
  rcases pr with ⟨olms, w, c⟩
  rcases h with h | ⟨lms, h, hlen⟩
  · simp only at h
    subst h
    rfl
  · simp only at h
    subst h
    simp [classifyPose, hlen]

theorem classify_short_skeleton_fallback_witness :
    classifyPose ⟨none, [], 0.9⟩ = noLandmarksResult ∧
    classifyPose ⟨some [defaultLandmark], [], 0.9⟩ = noLandmarksResult :=
  ⟨classify_short_skeleton_fallback ⟨none, [], 0.9⟩ (Or.inl rfl),
   classify_short_skeleton_fallback ⟨some [defaultLandmark], [], 0.9⟩
     (Or.inr ⟨[defaultLandmark], rfl, by simp⟩)⟩

/-- C4: with at least 33 landmarks, if any of the eight required
landmarks lacks a visibility value or has visibility at most 0.5,
`classifyPose` returns the "Show Full Body" warning with confidence 0 —
no pose rule is evaluated, whatever the joint angles are. -/
theorem classify_low_visibility_warning (pr : PoseResult) (lms : List Landmark)
    (hpr : pr.landmarks = some lms)
    (hlen : 33 ≤ lms.length)
    (hbad : ∃ lm ∈ requiredLandmarks lms,
      lm.visibility = none ∨ ∃ v, lm.visibility = some v ∧ v ≤ 0.5) :
    classifyPose pr = showFullBodyResult := by
  rcases pr with ⟨olms, w, c⟩
  simp only at hpr
  subst hpr
  have hnotvis : ¬ allVisible lms := by
    intro hvis
    obtain ⟨lm, hmem, hlm⟩ := hbad
    obtain ⟨v, hv, hgt⟩ := hvis lm hmem
    rcases hlm with hnone | ⟨v', hv', hle⟩
    · rw [hnone] at hv
      exact Option.noConfusion hv
    · rw [hv'] at hv
      have : v' = v := Option.some.inj hv
      subst this
      linarith
  simp only [classifyPose]
  rw [if_neg (by omega), if_pos hnotvis]

theorem classify_low_visibility_warning_witness :
    classifyPose hiddenPoseResult = showFullBodyResult := by
  refine classify_low_visibility_warning hiddenPoseResult hiddenLandmarks rfl (by simp [hiddenLandmarks]) ?_
  refine ⟨defaultLandmark, ?_, Or.inl rfl⟩
  rw [show requiredLandmarks hiddenLandmarks =
    [defaultLandmark, defaultLandmark, defaultLandmark, defaultLandmark,
     defaultLandmark, defaultLandmark, defaultLandmark, defaultLandmark] from rfl]
  simp

lemma atan2_zero_pos {x : ℝ} (hx : 0 < x) : atan2 0 x = 0 := by
  rw [atan2, if_pos hx, zero_div, Real.arctan_zero]

lemma atan2_zero_neg {x : ℝ} (hx : x < 0) : atan2 0 x = Real.pi := by
  rw [atan2, if_neg (by linarith), if_pos hx, if_pos le_rfl, zero_div, Real.arctan_zero, zero_add]

lemma atan2_neg_diag {a : ℝ} (ha : 0 < a) : atan2 (-a) a = -(Real.pi / 4) := by
  rw [atan2, if_pos ha]
  rw [show -a / a = -1 by field_simp]
  rw [show (-1 : ℝ) = -(1 : ℝ) from rfl, Real.arctan_neg, Real.arctan_one]

lemma atan2_pos_negdiag {a : ℝ} (ha : 0 < a) : atan2 a (-a) = 3 * Real.pi / 4 := by
  rw [atan2, if_neg (by linarith), if_pos (by linarith), if_pos (by linarith)]
  rw [show a / -a = -1 by field_simp]
  rw [show (-1 : ℝ) = -(1 : ℝ) from rfl, Real.arctan_neg, Real.arctan_one]
  ring

lemma calculateAngle_of_diff_neg_pi (a b c : Landmark)
    (h : atan2 (c.y - b.y) (c.x - b.x) - atan2 (a.y - b.y) (a.x - b.x) = -Real.pi) :
    calculateAngle a b c = 180 := by
  simp only [calculateAngle]
  rw [h]
  have habs : |(-Real.pi) * 180 / Real.pi| = 180 := by
    rw [abs_div, abs_mul, abs_neg, abs_of_pos Real.pi_pos,
      abs_of_pos (by norm_num : (0 : ℝ) < 180)]
    field_simp
  rw [habs]
  norm_num

lemma calculateAlignment_of_eq_dirs (p1 p2 p3 : Landmark)
    (h : atan2 (p2.y - p1.y) (p2.x - p1.x) = atan2 (p3.y - p2.y) (p3.x - p2.x)) :
    calculateAlignment p1 p2 p3 = 1 := by
  simp only [calculateAlignment]
  rw [h, sub_self, abs_zero, zero_div]
  norm_num

lemma wArm_val : calculateAngle (wPoint 0.1 0.8) (wPoint 0.2 0.8) (wPoint 0.3 0.8) = 180 := by
  apply calculateAngle_of_diff_neg_pi
  rw [show (wPoint 0.3 0.8).y - (wPoint 0.2 0.8).y = (0 : ℝ) from by simp [wPoint]]
  rw [show (wPoint 0.3 0.8).x - (wPoint 0.2 0.8).x = (0.1 : ℝ) from by simp [wPoint]; norm_num]
  rw [show (wPoint 0.1 0.8).y - (wPoint 0.2 0.8).y = (0 : ℝ) from by simp [wPoint]]
  rw [show (wPoint 0.1 0.8).x - (wPoint 0.2 0.8).x = -(0.1 : ℝ) from by simp [wPoint]; norm_num]
  rw [atan2_zero_pos (by norm_num : (0:ℝ) < 0.1), atan2_zero_neg (by norm_num : -(0.1:ℝ) < 0)]
  ring

lemma wLeg_val : calculateAngle (wPoint 0.22 0.68) (wPoint 0.37 0.53) (wPoint 0.52 0.38) = 180 := by
  apply calculateAngle_of_diff_neg_pi
  rw [show (wPoint 0.52 0.38).y - (wPoint 0.37 0.53).y = -(0.15 : ℝ) from by
    simp [wPoint]; norm_num]
  rw [show (wPoint 0.52 0.38).x - (wPoint 0.37 0.53).x = (0.15 : ℝ) from by
    simp [wPoint]; norm_num]
  rw [show (wPoint 0.22 0.68).y - (wPoint 0.37 0.53).y = (0.15 : ℝ) from by
    simp [wPoint]; norm_num]
  rw [show (wPoint 0.22 0.68).x - (wPoint 0.37 0.53).x = -(0.15 : ℝ) from by
    simp [wPoint]; norm_num]
  rw [atan2_neg_diag (by norm_num : (0:ℝ) < 0.15), atan2_pos_negdiag (by norm_num : (0:ℝ) < 0.15)]
  ring

lemma wBodyAlign_val :
    calculateAlignment (wPoint 0.1 0.8) (wPoint 0.22 0.68) (wPoint 0.52 0.38) = 1 := by
  apply calculateAlignment_of_eq_dirs
  rw [show (wPoint 0.22 0.68).y - (wPoint 0.1 0.8).y = -(0.12 : ℝ) from by
    simp [wPoint]; norm_num]
  rw [show (wPoint 0.22 0.68).x - (wPoint 0.1 0.8).x = (0.12 : ℝ) from by
    simp [wPoint]; norm_num]
  rw [show (wPoint 0.52 0.38).y - (wPoint 0.22 0.68).y = -(0.3 : ℝ) from by
    simp [wPoint]; norm_num]
  rw [show (wPoint 0.52 0.38).x - (wPoint 0.22 0.68).x = (0.3 : ℝ) from by
    simp [wPoint]; norm_num]
  rw [atan2_neg_diag (by norm_num : (0:ℝ) < 0.12), atan2_neg_diag (by norm_num : (0:ℝ) < 0.3)]

lemma wFeat_leftArm : (computeFeatures witnessLandmarks).leftArmAngle = 180 := wArm_val

lemma wFeat_rightArm : (computeFeatures witnessLandmarks).rightArmAngle = 180 := wArm_val

lemma wFeat_leftLeg : (computeFeatures witnessLandmarks).leftLegAngle = 180 := wLeg_val

lemma wFeat_rightLeg : (computeFeatures witnessLandmarks).rightLegAngle = 180 := wLeg_val

lemma wFeat_bodyAlign : (computeFeatures witnessLandmarks).bodyAlignment = 1 := wBodyAlign_val

lemma wFeat_torso : (computeFeatures witnessLandmarks).torsoAngle = -45 := by
  show atan2 (((0.68:ℝ) + 0.68) / 2 - ((0.8:ℝ) + 0.8) / 2)
      (((0.22:ℝ) + 0.22) / 2 - ((0.1:ℝ) + 0.1) / 2) * 180 / Real.pi = -45
  rw [show ((0.68:ℝ) + 0.68) / 2 - ((0.8:ℝ) + 0.8) / 2 = -(0.12 : ℝ) from by norm_num]
  rw [show ((0.22:ℝ) + 0.22) / 2 - ((0.1:ℝ) + 0.1) / 2 = (0.12 : ℝ) from by norm_num]
  rw [atan2_neg_diag (by norm_num : (0:ℝ) < 0.12)]
  have hpi := Real.pi_ne_zero
  field_simp
  ring

lemma metCount_of_first_four {p1 p2 p3 p4 p5 : Prop} (h1 : p1) (h2 : p2) (h3 : p3) (h4 : p4) :
    4 ≤ metCount [p1, p2, p3, p4, p5] := by
  by_cases h5 : p5 <;> simp [metCount, List.countP_cons, h1, h2, h3, h4, h5]

lemma metCount_of_1235 {p1 p2 p3 p4 p5 : Prop} (h1 : p1) (h2 : p2) (h3 : p3) (h5 : p5) :
    4 ≤ metCount [p1, p2, p3, p4, p5] := by
  by_cases h4 : p4 <;> simp [metCount, List.countP_cons, h1, h2, h3, h5, h4]

/-- C1: whenever the guards pass and both Plank's threshold (4 of 5
criteria) and Downward Dog's threshold (4 of 5) hold simultaneously,
`classifyPose` returns Plank; and in general the rule cascade equals the
specification's ordered first-match evaluation Plank → Downward Dog →
Warrior II → Warrior I → Tree → Mountain → Child's → Cobra, later
also-matching poses never being considered. -/
theorem classify_priority_order (pr : PoseResult) (lms : List Landmark)
    (hpr : pr.landmarks = some lms)
    (hlen : ¬ lms.length < 33)
    (hvis : allVisible lms)
    (hheight : ¬ bodyHeight lms < 0.4)
    (hplank : 4 ≤ metCount (plankCriteria (computeFeatures lms)))
    (hdd : 4 ≤ metCount (downwardDogCriteria (computeFeatures lms))) :
    classifyPose pr = plankResult (computeFeatures lms) ∧
    (classifyPose pr).pose = YOGA_POSES.PLANK ∧
    (∀ f : Features, classifyFromFeatures f = firstMatchingPose poseRuleOrder f) := by
  rcases pr with ⟨olms, w, c⟩
  simp only at hpr
  subst hpr
  have hmain : classifyPose ⟨some lms, w, c⟩ = plankResult (computeFeatures lms) := by
    simp only [classifyPose]
    rw [if_neg hlen, if_neg (not_not_intro hvis), if_neg hheight]
    rw [classifyFromFeatures, if_pos hplank]
  refine ⟨hmain, by rw [hmain]; rfl, ?_⟩
  intro f
  simp [classifyFromFeatures, firstMatchingPose, poseRuleOrder]

theorem classify_priority_order_witness :
    (classifyPose witnessPoseResult).pose = YOGA_POSES.PLANK := by
  have hvis : allVisible witnessLandmarks := by
    intro lm hlm
    rw [show requiredLandmarks witnessLandmarks =
      [wPoint 0.1 0.8, wPoint 0.1 0.8, wPoint 0.22 0.68, wPoint 0.22 0.68,
       wPoint 0.37 0.53, wPoint 0.37 0.53, wPoint 0.52 0.38, wPoint 0.52 0.38] from rfl] at hlm
    simp only [List.mem_cons, List.not_mem_nil, or_false] at hlm
    have hv : lm.visibility = some 0.9 := by
      rcases hlm with rfl | rfl | rfl | rfl | rfl | rfl | rfl | rfl <;> rfl
    exact ⟨0.9, hv, by norm_num⟩
  have hheight : ¬ bodyHeight witnessLandmarks < 0.4 := by
    rw [show bodyHeight witnessLandmarks = |max (0.8:ℝ) 0.8 - max (0.38:ℝ) 0.38| from rfl]
    rw [max_self, max_self]
    rw [show |(0.8:ℝ) - 0.38| = (0.42:ℝ) from by rw [abs_of_pos (by norm_num)]; norm_num]
    norm_num
  have hc4 : |(computeFeatures witnessLandmarks).leftShoulder.y -
      (computeFeatures witnessLandmarks).leftHip.y| < 0.15 := by
    rw [show (computeFeatures witnessLandmarks).leftShoulder.y = (0.8:ℝ) from rfl]
    rw [show (computeFeatures witnessLandmarks).leftHip.y = (0.68:ℝ) from rfl]
    rw [show |(0.8:ℝ) - 0.68| = (0.12:ℝ) from by rw [abs_of_pos (by norm_num)]; norm_num]
    norm_num
  have hplank : 4 ≤ metCount (plankCriteria (computeFeatures witnessLandmarks)) := by
    apply metCount_of_first_four
    · exact ⟨by rw [wFeat_leftArm]; norm_num, by rw [wFeat_rightArm]; norm_num⟩
    · exact ⟨by rw [wFeat_leftLeg]; norm_num, by rw [wFeat_rightLeg]; norm_num⟩
    · rw [wFeat_bodyAlign]; norm_num
    · exact hc4
  have hdd : 4 ≤ metCount (downwardDogCriteria (computeFeatures witnessLandmarks)) := by
    apply metCount_of_1235
    · exact ⟨by rw [wFeat_leftArm]; norm_num, by rw [wFeat_rightArm]; norm_num⟩
    · exact ⟨by rw [wFeat_leftLeg]; norm_num, by rw [wFeat_rightLeg]; norm_num⟩
    · rw [show (computeFeatures witnessLandmarks).leftHip.y = (0.68:ℝ) from rfl]
      rw [show (computeFeatures witnessLandmarks).leftShoulder.y = (0.8:ℝ) from rfl]
      norm_num
    · rw [wFeat_torso]
      rw [show |(-45 : ℝ)| = (45:ℝ) from by rw [abs_of_neg (by norm_num)]; norm_num]
      norm_num
  exact (classify_priority_order witnessPoseResult witnessLandmarks rfl
    (by rw [show witnessLandmarks.length = 33 from rfl]; omega)
    hvis hheight hplank hdd).2.1

lemma plankConfidence_bounds {p1 p2 p3 p4 p5 : Prop}
    (h : 4 ≤ metCount [p1, p2, p3, p4, p5]) :
    1/2 < calculatePoseConfidence [p1, p2, p3, p4, p5] plankWeights ∧
    calculatePoseConfidence [p1, p2, p3, p4, p5] plankWeights ≤ 1 := by
  by_cases h1 : p1 <;> by_cases h2 : p2 <;> by_cases h3 : p3 <;> by_cases h4 : p4 <;>
    by_cases h5 : p5 <;>
    simp_all [metCount, calculatePoseConfidence, plankWeights, List.countP_cons] <;>
    norm_num

lemma downwardDogConfidence_bounds {p1 p2 p3 p4 p5 : Prop}
    (h : 4 ≤ metCount [p1, p2, p3, p4, p5]) :
    1/2 < calculatePoseConfidence [p1, p2, p3, p4, p5] downwardDogWeights ∧
    calculatePoseConfidence [p1, p2, p3, p4, p5] downwardDogWeights ≤ 1 := by
  by_cases h1 : p1 <;> by_cases h2 : p2 <;> by_cases h3 : p3 <;> by_cases h4 : p4 <;>
    by_cases h5 : p5 <;>
    simp_all [metCount, calculatePoseConfidence, downwardDogWeights, List.countP_cons] <;>
    norm_num

lemma warrior2Confidence_bounds {p1 p2 p3 p4 p5 : Prop}
    (h : 4 ≤ metCount [p1, p2, p3, p4, p5]) :
    1/2 < calculatePoseConfidence [p1, p2, p3, p4, p5] warrior2Weights ∧
    calculatePoseConfidence [p1, p2, p3, p4, p5] warrior2Weights ≤ 1 := by
  by_cases h1 : p1 <;> by_cases h2 : p2 <;> by_cases h3 : p3 <;> by_cases h4 : p4 <;>
    by_cases h5 : p5 <;>
    simp_all [metCount, calculatePoseConfidence, warrior2Weights, List.countP_cons] <;>
    norm_num

lemma warrior1Confidence_bounds {p1 p2 p3 p4 : Prop}
    (h : 3 ≤ metCount [p1, p2, p3, p4]) :
    1/2 < calculatePoseConfidence [p1, p2, p3, p4] warrior1Weights ∧
    calculatePoseConfidence [p1, p2, p3, p4] warrior1Weights ≤ 1 := by
  by_cases h1 : p1 <;> by_cases h2 : p2 <;> by_cases h3 : p3 <;> by_cases h4 : p4 <;>
    simp_all [metCount, calculatePoseConfidence, warrior1Weights, List.countP_cons] <;>
    norm_num

lemma treeConfidence_bounds {p1 p2 p3 p4 p5 : Prop}
    (h : 4 ≤ metCount [p1, p2, p3, p4, p5]) :
    1/2 < calculatePoseConfidence [p1, p2, p3, p4, p5] treeWeights ∧
    calculatePoseConfidence [p1, p2, p3, p4, p5] treeWeights ≤ 1 := by
  by_cases h1 : p1 <;> by_cases h2 : p2 <;> by_cases h3 : p3 <;> by_cases h4 : p4 <;>
    by_cases h5 : p5 <;>
    simp_all [metCount, calculatePoseConfidence, treeWeights, List.countP_cons] <;>
    norm_num

lemma mountainConfidence_bounds {p1 p2 p3 p4 p5 : Prop}
    (h : 4 ≤ metCount [p1, p2, p3, p4, p5]) :
    1/2 < calculatePoseConfidence [p1, p2, p3, p4, p5] mountainWeights ∧
    calculatePoseConfidence [p1, p2, p3, p4, p5] mountainWeights ≤ 1 := by
  by_cases h1 : p1 <;> by_cases h2 : p2 <;> by_cases h3 : p3 <;> by_cases h4 : p4 <;>
    by_cases h5 : p5 <;>
    simp_all [metCount, calculatePoseConfidence, mountainWeights, List.countP_cons] <;>
    norm_num

lemma childConfidence_bounds {p1 p2 p3 p4 p5 : Prop}
    (h : 4 ≤ metCount [p1, p2, p3, p4, p5]) :
    1/2 < calculatePoseConfidence [p1, p2, p3, p4, p5] childWeights ∧
    calculatePoseConfidence [p1, p2, p3, p4, p5] childWeights ≤ 1 := by
  by_cases h1 : p1 <;> by_cases h2 : p2 <;> by_cases h3 : p3 <;> by_cases h4 : p4 <;>
    by_cases h5 : p5 <;>
    simp_all [metCount, calculatePoseConfidence, childWeights, List.countP_cons] <;>
    norm_num

lemma cobraConfidence_bounds {p1 p2 p3 p4 p5 : Prop}
    (h : 3 ≤ metCount [p1, p2, p3, p4, p5]) :
    1/2 < calculatePoseConfidence [p1, p2, p3, p4, p5] cobraWeights ∧
    calculatePoseConfidence [p1, p2, p3, p4, p5] cobraWeights ≤ 1 := by
  by_cases h1 : p1 <;> by_cases h2 : p2 <;> by_cases h3 : p3 <;> by_cases h4 : p4 <;>
    by_cases h5 : p5 <;>
    simp_all [metCount, calculatePoseConfidence, cobraWeights, List.countP_cons] <;>
    norm_num

lemma classifyFromFeatures_confidence (f : Features) :
    0 ≤ (classifyFromFeatures f).confidence ∧ (classifyFromFeatures f).confidence ≤ 1 ∧
    ((classifyFromFeatures f).pose ∈ eightPoseNames →
      1/2 < (classifyFromFeatures f).confidence) := by
  rw [classifyFromFeatures]
  split_ifs with hp hd hw2 hw1 ht hm hc hcb
  · obtain ⟨hlo, hhi⟩ := plankConfidence_bounds hp
    refine ⟨?_, ?_, fun _ => ?_⟩ <;> simp only [plankResult, plankCriteria] <;> linarith
  · obtain ⟨hlo, hhi⟩ := downwardDogConfidence_bounds hd
    refine ⟨?_, ?_, fun _ => ?_⟩ <;> simp only [downwardDogResult, downwardDogCriteria] <;> linarith
  · obtain ⟨hlo, hhi⟩ := warrior2Confidence_bounds hw2
    refine ⟨?_, ?_, fun _ => ?_⟩ <;> simp only [warrior2Result, warrior2Criteria] <;> linarith
  · obtain ⟨hlo, hhi⟩ := warrior1Confidence_bounds hw1
    refine ⟨?_, ?_, fun _ => ?_⟩ <;> simp only [warrior1Result, warrior1Criteria] <;> linarith
  · obtain ⟨hlo, hhi⟩ := treeConfidence_bounds ht
    refine ⟨?_, ?_, fun _ => ?_⟩ <;> simp only [treeResult, treeCriteria] <;> linarith
  · obtain ⟨hlo, hhi⟩ := mountainConfidence_bounds hm
    refine ⟨?_, ?_, fun _ => ?_⟩ <;> simp only [mountainResult, mountainCriteria] <;> linarith
  · obtain ⟨hlo, hhi⟩ := childConfidence_bounds hc
    refine ⟨?_, ?_, fun _ => ?_⟩ <;> simp only [childResult, childCriteria] <;> linarith
  · obtain ⟨hlo, hhi⟩ := cobraConfidence_bounds hcb
    refine ⟨?_, ?_, fun _ => ?_⟩ <;> simp only [cobraResult, cobraCriteria] <;> linarith
  · refine ⟨by norm_num [unknownResult], by norm_num [unknownResult], fun hmem => ?_⟩
    exact absurd (by simpa only [unknownResult] using hmem)
      (by decide : ¬ ("Unknown Pose" ∈ eightPoseNames))

/-- C9: every confidence `classifyPose` returns lies in [0, 1], and
whenever it returns one of the eight named yoga poses the weighted
confidence is strictly greater than 1/2 (and at most 1); the fallbacks
and warnings carry the constants 0 and 0.5. -/
theorem classify_confidence_bounds (pr : PoseResult) :
    0 ≤ (classifyPose pr).confidence ∧ (classifyPose pr).confidence ≤ 1 ∧
    ((classifyPose pr).pose ∈ eightPoseNames → 1/2 < (classifyPose pr).confidence) := by
  rcases pr with ⟨olms, w, c⟩
  rcases olms with _ | lms
  · rw [show classifyPose ⟨none, w, c⟩ = noLandmarksResult from rfl]
    refine ⟨by norm_num [noLandmarksResult], by norm_num [noLandmarksResult], fun hmem => ?_⟩
    exact absurd (by simpa only [noLandmarksResult] using hmem)
      (by decide : ¬ ("Position Your Body" ∈ eightPoseNames))
  · simp only [classifyPose]
    split_ifs with hl hv hh
    · refine ⟨by norm_num [noLandmarksResult], by norm_num [noLandmarksResult], fun hmem => ?_⟩
      exact absurd (by simpa only [noLandmarksResult] using hmem)
        (by decide : ¬ ("Position Your Body" ∈ eightPoseNames))
    · refine ⟨by norm_num [moveBackResult], by norm_num [moveBackResult], fun hmem => ?_⟩
      exact absurd (by simpa only [moveBackResult] using hmem)
        (by decide : ¬ ("Move Back" ∈ eightPoseNames))
    · exact classifyFromFeatures_confidence (computeFeatures lms)
    · refine ⟨by norm_num [showFullBodyResult], by norm_num [showFullBodyResult], fun hmem => ?_⟩
      exact absurd (by simpa only [showFullBodyResult] using hmem)
        (by decide : ¬ ("Show Full Body" ∈ eightPoseNames))

lemma atan2_range_pos {y x : ℝ} (hx : 0 < x) :
    -(Real.pi / 2) < atan2 y x ∧ atan2 y x < Real.pi / 2 := by
  rw [atan2, if_pos hx]
  exact ⟨Real.neg_pi_div_two_lt_arctan _, Real.arctan_lt_pi_div_two _⟩

lemma atan2_range_neg_nonneg {y x : ℝ} (hx : x < 0) (hy : 0 ≤ y) :
    Real.pi / 2 < atan2 y x ∧ atan2 y x ≤ Real.pi := by
  rw [atan2, if_neg (by linarith), if_pos hx, if_pos hy]
  have hyx : y / x ≤ 0 := div_nonpos_of_nonneg_of_nonpos hy hx.le
  have h0 : Real.arctan (y / x) ≤ 0 := by
    rw [← Real.arctan_zero]
    exact Real.arctan_strictMono.monotone hyx
  have hlow : -(Real.pi / 2) < Real.arctan (y / x) := Real.neg_pi_div_two_lt_arctan _
  constructor <;> linarith

lemma atan2_range_neg_neg {y x : ℝ} (hx : x < 0) (hy : y < 0) :
    -Real.pi < atan2 y x ∧ atan2 y x < -(Real.pi / 2) := by
  rw [atan2, if_neg (by linarith), if_pos hx, if_neg (by linarith)]
  have hyx : 0 < y / x := div_pos_of_neg_of_neg hy hx
  have h0 : 0 < Real.arctan (y / x) := by
    rw [← Real.arctan_zero]
    exact Real.arctan_strictMono hyx
  have hhigh : Real.arctan (y / x) < Real.pi / 2 := Real.arctan_lt_pi_div_two _
  constructor <;> linarith

lemma atan2_zero_x_pos_y {y : ℝ} (hy : 0 < y) : atan2 y 0 = Real.pi / 2 := by
  rw [atan2, if_neg (lt_irrefl 0), if_neg (lt_irrefl 0), if_pos hy]

lemma atan2_zero_x_neg_y {y : ℝ} (hy : y < 0) : atan2 y 0 = -(Real.pi / 2) := by
  rw [atan2, if_neg (lt_irrefl 0), if_neg (lt_irrefl 0), if_neg (by linarith), if_pos hy]

lemma atan2_smul (y x t : ℝ) (ht : 0 < t) : atan2 (t * y) (t * x) = atan2 y x := by
  have hdiv : t * y / (t * x) = y / x := mul_div_mul_left y x (ne_of_gt ht)
  rcases lt_trichotomy 0 x with hx | hx | hx
  · rw [atan2, atan2, if_pos hx, if_pos (mul_pos ht hx), hdiv]
  · have hx0 : x = 0 := hx.symm
    subst hx0
    rw [mul_zero]
    rcases lt_trichotomy 0 y with hy | hy | hy
    · rw [atan2_zero_x_pos_y hy, atan2_zero_x_pos_y (mul_pos ht hy)]
    · have hy0 : y = 0 := hy.symm
      subst hy0
      rw [mul_zero]
    · rw [atan2_zero_x_neg_y hy, atan2_zero_x_neg_y (mul_neg_of_pos_of_neg ht hy)]
  · have htx : t * x < 0 := mul_neg_of_pos_of_neg ht hx
    rcases le_or_lt 0 y with hy | hy
    · rw [atan2, atan2,
        if_neg (show ¬ (0 < t * x) by linarith),
        if_pos htx,
        if_pos (mul_nonneg ht.le hy),
        if_neg (show ¬ (0 < x) by linarith),
        if_pos hx,
        if_pos hy,
        hdiv]
    · rw [atan2, atan2,
        if_neg (show ¬ (0 < t * x) by linarith),
        if_pos htx,
        if_neg (show ¬ (0 ≤ t * y) by push_neg; exact mul_neg_of_pos_of_neg ht hy),
        if_neg (show ¬ (0 < x) by linarith),
        if_pos hx,
        if_neg (show ¬ (0 ≤ y) by push_neg; exact hy),
        hdiv]

lemma atan2_pos_x_eq {y x : ℝ} (hx : 0 < x) : atan2 y x = Real.arctan (y / x) := by
  rw [atan2, if_pos hx]

lemma atan2_neg_x_nonneg_eq {y x : ℝ} (hx : x < 0) (hy : 0 ≤ y) :
    atan2 y x = Real.arctan (y / x) + Real.pi := by
  rw [atan2, if_neg (show ¬ (0 < x) by linarith), if_pos hx, if_pos hy]

lemma atan2_neg_x_neg_eq {y x : ℝ} (hx : x < 0) (hy : y < 0) :
    atan2 y x = Real.arctan (y / x) - Real.pi := by
  rw [atan2, if_neg (show ¬ (0 < x) by linarith), if_pos hx,
    if_neg (show ¬ (0 ≤ y) by push_neg; exact hy)]

lemma ratio_to_smul {y1 x1 y2 x2 : ℝ} (hx1 : x1 ≠ 0) (hx2 : x2 ≠ 0) (hsign : 0 < x2 / x1)
    (hr : y1 / x1 = y2 / x2) : ∃ t : ℝ, 0 < t ∧ x2 = t * x1 ∧ y2 = t * y1 := by
  refine ⟨x2 / x1, hsign, by field_simp, ?_⟩
  have h := (div_eq_div_iff hx1 hx2).mp hr
  field_simp
  linear_combination -h

lemma atan2_inj {y1 x1 y2 x2 : ℝ} (h1 : ¬ (x1 = 0 ∧ y1 = 0)) (h2 : ¬ (x2 = 0 ∧ y2 = 0))
    (heq : atan2 y1 x1 = atan2 y2 x2) :
    ∃ t : ℝ, 0 < t ∧ x2 = t * x1 ∧ y2 = t * y1 := by
  have hpi := Real.pi_pos
  rcases lt_trichotomy 0 x1 with hx1 | hx1 | hx1
  · obtain ⟨hl1, hr1⟩ := atan2_range_pos (y := y1) hx1
    rcases lt_trichotomy 0 x2 with hx2 | hx2 | hx2
    · rw [atan2_pos_x_eq hx1, atan2_pos_x_eq hx2] at heq
      exact ratio_to_smul (ne_of_gt hx1) (ne_of_gt hx2) (div_pos hx2 hx1)
        (Real.arctan_injective heq)
    · have hx20 : x2 = 0 := hx2.symm
      subst hx20
      rcases lt_trichotomy 0 y2 with hy2 | hy2 | hy2
      · rw [atan2_zero_x_pos_y hy2] at heq
        exfalso; rw [heq] at hr1; linarith
      · exact absurd ⟨rfl, hy2.symm⟩ h2
      · rw [atan2_zero_x_neg_y hy2] at heq
        exfalso; rw [heq] at hl1; linarith
    · rcases le_or_lt 0 y2 with hy2 | hy2
      · obtain ⟨hl2, _⟩ := atan2_range_neg_nonneg hx2 hy2
        exfalso; rw [heq] at hr1; linarith
      · obtain ⟨_, hr2⟩ := atan2_range_neg_neg hx2 hy2
        exfalso; rw [heq] at hl1; linarith
  · have hx10 : x1 = 0 := hx1.symm
    subst hx10
    rcases lt_trichotomy 0 y1 with hy1 | hy1 | hy1
    · rw [atan2_zero_x_pos_y hy1] at heq
      rcases lt_trichotomy 0 x2 with hx2 | hx2 | hx2
      · obtain ⟨_, hr2⟩ := atan2_range_pos (y := y2) hx2
        exfalso; rw [← heq] at hr2; linarith
      · have hx20 : x2 = 0 := hx2.symm
        subst hx20
        rcases lt_trichotomy 0 y2 with hy2 | hy2 | hy2
        · exact ⟨y2 / y1, div_pos hy2 hy1, by ring, by field_simp⟩
        · exact absurd ⟨rfl, hy2.symm⟩ h2
        · rw [atan2_zero_x_neg_y hy2] at heq
          exfalso; linarith
      · rcases le_or_lt 0 y2 with hy2 | hy2
        · obtain ⟨hl2, _⟩ := atan2_range_neg_nonneg hx2 hy2
          exfalso; rw [← heq] at hl2; linarith
        · obtain ⟨_, hr2⟩ := atan2_range_neg_neg hx2 hy2
          exfalso; rw [← heq] at hr2; linarith
    · exact absurd ⟨rfl, hy1.symm⟩ h1
    · rw [atan2_zero_x_neg_y hy1] at heq
      rcases lt_trichotomy 0 x2 with hx2 | hx2 | hx2
      · obtain ⟨hl2, _⟩ := atan2_range_pos (y := y2) hx2
        exfalso; rw [← heq] at hl2; linarith
      · have hx20 : x2 = 0 := hx2.symm
        subst hx20
        rcases lt_trichotomy 0 y2 with hy2 | hy2 | hy2
        · rw [atan2_zero_x_pos_y hy2] at heq
          exfalso; linarith
        · exact absurd ⟨rfl, hy2.symm⟩ h2
        · exact ⟨y2 / y1, div_pos_of_neg_of_neg hy2 hy1, by ring,
            by field_simp [ne_of_lt hy1]⟩
      · rcases le_or_lt 0 y2 with hy2 | hy2
        · obtain ⟨hl2, _⟩ := atan2_range_neg_nonneg hx2 hy2
          exfalso; rw [← heq] at hl2; linarith
        · obtain ⟨_, hr2⟩ := atan2_range_neg_neg hx2 hy2
          exfalso; rw [← heq] at hr2; linarith
  · rcases le_or_lt 0 y1 with hy1 | hy1
    · obtain ⟨hl1, hr1⟩ := atan2_range_neg_nonneg hx1 hy1
      rcases lt_trichotomy 0 x2 with hx2 | hx2 | hx2
      · obtain ⟨_, hr2⟩ := atan2_range_pos (y := y2) hx2
        exfalso; rw [heq] at hl1; linarith
      · have hx20 : x2 = 0 := hx2.symm
        subst hx20
        rcases lt_trichotomy 0 y2 with hy2 | hy2 | hy2
        · rw [atan2_zero_x_pos_y hy2] at heq
          exfalso; rw [heq] at hl1; linarith
        · exact absurd ⟨rfl, hy2.symm⟩ h2
        · rw [atan2_zero_x_neg_y hy2] at heq
          exfalso; rw [heq] at hl1; linarith
      · rcases le_or_lt 0 y2 with hy2 | hy2
        · rw [atan2_neg_x_nonneg_eq hx1 hy1, atan2_neg_x_nonneg_eq hx2 hy2] at heq
          have heq' : Real.arctan (y1 / x1) = Real.arctan (y2 / x2) := by linarith
          exact ratio_to_smul (ne_of_lt hx1) (ne_of_lt hx2)
            (div_pos_of_neg_of_neg hx2 hx1) (Real.arctan_injective heq')
        · obtain ⟨_, hr2⟩ := atan2_range_neg_neg hx2 hy2
          exfalso; rw [heq] at hl1; linarith
    · obtain ⟨hl1, hr1⟩ := atan2_range_neg_neg hx1 hy1
      rcases lt_trichotomy 0 x2 with hx2 | hx2 | hx2
      · obtain ⟨hl2, _⟩ := atan2_range_pos (y := y2) hx2
        exfalso; rw [heq] at hr1; linarith
      · have hx20 : x2 = 0 := hx2.symm
        subst hx20
        rcases lt_trichotomy 0 y2 with hy2 | hy2 | hy2
        · rw [atan2_zero_x_pos_y hy2] at heq
          exfalso; rw [heq] at hr1; linarith
        · exact absurd ⟨rfl, hy2.symm⟩ h2
        · rw [atan2_zero_x_neg_y hy2] at heq
          exfalso; rw [heq] at hr1; linarith
      · rcases le_or_lt 0 y2 with hy2 | hy2
        · obtain ⟨hl2, _⟩ := atan2_range_neg_nonneg hx2 hy2
          exfalso; rw [heq] at hr1; linarith
        · rw [atan2_neg_x_neg_eq hx1 hy1, atan2_neg_x_neg_eq hx2 hy2] at heq
          have heq' : Real.arctan (y1 / x1) = Real.arctan (y2 / x2) := by linarith
          exact ratio_to_smul (ne_of_lt hx1) (ne_of_lt hx2)
            (div_pos_of_neg_of_neg hx2 hx1) (Real.arctan_injective heq')

/-- C7: `calculateAlignment` always lies in [0, 1]; for nondegenerate
segments it equals 1 exactly when segment p1→p2 and segment p2→p3 point
in the same direction (the second is a positive scalar multiple of the
first), and it equals 0 exactly when the deviation between the two
segment direction angles is at least π. -/
theorem calculateAlignment_characterization (p1 p2 p3 : Landmark)
    (hv : ¬ (p2.x - p1.x = 0 ∧ p2.y - p1.y = 0))
    (hw : ¬ (p3.x - p2.x = 0 ∧ p3.y - p2.y = 0)) :
    (0 ≤ calculateAlignment p1 p2 p3 ∧ calculateAlignment p1 p2 p3 ≤ 1) ∧
    (calculateAlignment p1 p2 p3 = 1 ↔
      ∃ t : ℝ, 0 < t ∧ p3.x - p2.x = t * (p2.x - p1.x) ∧ p3.y - p2.y = t * (p2.y - p1.y)) ∧
    (calculateAlignment p1 p2 p3 = 0 ↔
      Real.pi ≤ |atan2 (p2.y - p1.y) (p2.x - p1.x) - atan2 (p3.y - p2.y) (p3.x - p2.x)|) := by
  have hpi := Real.pi_pos
  simp only [calculateAlignment]
  set a1 := atan2 (p2.y - p1.y) (p2.x - p1.x) with ha1
  set a2 := atan2 (p3.y - p2.y) (p3.x - p2.x) with ha2
  have hd0 : 0 ≤ |a1 - a2| := abs_nonneg _
  have hm0 : 0 ≤ min (|a1 - a2| / Real.pi) 1 := le_min (div_nonneg hd0 hpi.le) zero_le_one
  have hm1 : min (|a1 - a2| / Real.pi) 1 ≤ 1 := min_le_right _ _
  refine ⟨⟨by linarith, by linarith⟩, ?_, ?_⟩
  · constructor
    · intro h
      have hmz : min (|a1 - a2| / Real.pi) 1 = 0 := by linarith
      have hdz : |a1 - a2| = 0 := by
        by_contra hne
        have hdpos : 0 < |a1 - a2| := lt_of_le_of_ne hd0 (Ne.symm hne)
        have : 0 < min (|a1 - a2| / Real.pi) 1 := lt_min (div_pos hdpos hpi) one_pos
        linarith
      have heq : a1 = a2 := sub_eq_zero.mp (abs_eq_zero.mp hdz)
      exact atan2_inj hv hw heq
    · rintro ⟨t, ht, hx, hy⟩
      have heq : a2 = a1 := by
        rw [ha2, ha1, hx, hy]
        exact atan2_smul _ _ t ht
      rw [heq, sub_self, abs_zero, zero_div]
      norm_num
  · constructor
    · intro h
      have hm : min (|a1 - a2| / Real.pi) 1 = 1 := by linarith
      exact (one_le_div hpi).mp (min_eq_right_iff.mp hm)
    · intro h
      have h1 : (1 : ℝ) ≤ |a1 - a2| / Real.pi := (one_le_div hpi).mpr h
      have hm : min (|a1 - a2| / Real.pi) 1 = 1 := min_eq_right h1
      linarith

theorem calculateAlignment_characterization_witness :
    (0 ≤ calculateAlignment ⟨0, 0, 0, none⟩ ⟨1, 0, 0, none⟩ ⟨2, 0, 0, none⟩ ∧
      calculateAlignment ⟨0, 0, 0, none⟩ ⟨1, 0, 0, none⟩ ⟨2, 0, 0, none⟩ ≤ 1) ∧
    (calculateAlignment ⟨0, 0, 0, none⟩ ⟨1, 0, 0, none⟩ ⟨2, 0, 0, none⟩ = 1 ↔
      ∃ t : ℝ, 0 < t ∧
        (⟨2, 0, 0, none⟩ : Landmark).x - (⟨1, 0, 0, none⟩ : Landmark).x =
          t * ((⟨1, 0, 0, none⟩ : Landmark).x - (⟨0, 0, 0, none⟩ : Landmark).x) ∧
        (⟨2, 0, 0, none⟩ : Landmark).y - (⟨1, 0, 0, none⟩ : Landmark).y =
          t * ((⟨1, 0, 0, none⟩ : Landmark).y - (⟨0, 0, 0, none⟩ : Landmark).y)) ∧
    (calculateAlignment ⟨0, 0, 0, none⟩ ⟨1, 0, 0, none⟩ ⟨2, 0, 0, none⟩ = 0 ↔
      Real.pi ≤ |atan2 ((⟨1, 0, 0, none⟩ : Landmark).y - (⟨0, 0, 0, none⟩ : Landmark).y)
          ((⟨1, 0, 0, none⟩ : Landmark).x - (⟨0, 0, 0, none⟩ : Landmark).x) -
        atan2 ((⟨2, 0, 0, none⟩ : Landmark).y - (⟨1, 0, 0, none⟩ : Landmark).y)
          ((⟨2, 0, 0, none⟩ : Landmark).x - (⟨1, 0, 0, none⟩ : Landmark).x)|) :=
  calculateAlignment_characterization ⟨0, 0, 0, none⟩ ⟨1, 0, 0, none⟩ ⟨2, 0, 0, none⟩
    (by norm_num) (by norm_num)
